import Mathlib

/-!
# Verification of the UserAssist registry value decoder

Shallow embedding of the core decoding functions of `userassist-parser.py`:

* `rot13_decode`              — ROT13 name de-obfuscation (`codecs.decode(s, 'rot_13')`);
* `convert_filetime`          — Windows FILETIME (100 ns ticks since 1601-01-01)
                                to a `YYYY-MM-DD HH:MM:SS` UTC string;
* `convert_focus_time_to_utc` — focus-time milliseconds interpreted as an offset
                                from 1970-01-01, same output format;
* `parse_userassist_entry`    — fixed-layout little-endian field extraction from
                                the raw value blob (Win7+/"Modern" and XP/"Legacy");
* `parse_userassist_value`    — the per-value body of the driver `parse_userassist`
                                that assembles the emitted record;
* `win7_of_version` / `select_format` — the per-GUID format selection.

Python `datetime` arithmetic (`datetime(1601,1,1) + timedelta(microseconds=us)`,
`strftime('%Y-%m-%d %H:%M:%S')`) is embedded by explicit proleptic-Gregorian
civil-calendar arithmetic (`civilFromDays`) plus fixed-width decimal formatting;
`datetime` overflow (`OverflowError` past year 9999, caught by the source's
`except` blocks) is embedded by the explicit range guards below, whose bounds are
exactly the number of microseconds (resp. milliseconds) from the respective epoch
to 10000-01-01.
-/

/-- A byte of the raw registry value blob. -/
abbrev Byte := Fin 256

/-- Little-endian value of a byte list: `struct.unpack` with format `<I`/`<Q`
on a byte slice of exactly that width. -/
def le_bytes (bs : List Byte) : Nat :=
  bs.foldr (fun b acc => b.val + 256 * acc) 0

/-- `data[i:j]` on byte strings (Python slicing). -/
def pySlice (data : List Byte) (i j : Nat) : List Byte :=
  (data.drop i).take (j - i)

/-! ## Civil (proleptic Gregorian) calendar arithmetic

This is the semantics of CPython's `datetime` date handling, expressed through
the standard days-to-civil conversion on the 400-year (146097-day) cycle.
`civilFromDays n` takes `n` = days since 1601-01-01 (the FILETIME epoch) and
returns the Gregorian `(year, month, day)`.  The shift `584694` moves the day
origin to 0000-03-01, the start of a 400-year cycle (1601-01-01 is day 584694
of that reckoning).
-/

/-- Days since 1601-01-01 to Gregorian `(year, month, day)`. -/
def civilFromDays (n : Nat) : Nat × Nat × Nat :=
  let z := n + 584694
  let era := z / 146097
  let doe := z % 146097
  let yoe := (doe - doe / 1460 + doe / 36524 - doe / 146096) / 365
  let y := yoe + era * 400
  let doy := doe - (365 * yoe + yoe / 4 - yoe / 100)
  let mp := (5 * doy + 2) / 153
  let d := doy - (153 * mp + 2) / 5 + 1
  let m := if mp < 10 then mp + 3 else mp - 9
  (if m ≤ 2 then y + 1 else y, m, d)

/-- The decimal digit character of `n % 10`. -/
def digitChar (n : Nat) : Char := Char.ofNat (48 + n % 10)

/-- Two-digit zero-padded decimal rendering (`%02d`, for values below 100). -/
def pad2 (n : Nat) : List Char := [digitChar (n / 10), digitChar n]

/-- Four-digit zero-padded decimal rendering (`%04d`, for values below 10000);
`strftime('%Y')` output for the years 1601–9999 reachable here. -/
def pad4 (n : Nat) : List Char := pad2 (n / 100) ++ pad2 n

/-- `strftime('%Y-%m-%d %H:%M:%S')` of the instant `days`/`secondOfDay`
(measured from 1601-01-01 00:00:00). -/
def formatDateTime (days sod : Nat) : String :=
  let c := civilFromDays days
  ⟨pad4 c.1 ++ '-' :: pad2 c.2.1 ++ '-' :: pad2 c.2.2 ++
   ' ' :: pad2 (sod / 3600) ++ ':' :: pad2 (sod % 3600 / 60) ++ ':' :: pad2 (sod % 60)⟩

/-- Days from 1601-01-01 (FILETIME epoch) to 1970-01-01 (Unix epoch). -/
def unixEpochDays : Nat := 134774

/-- Days from 1601-01-01 to 10000-01-01: first day `datetime` cannot represent. -/
def datetimeMaxDays : Nat := 3067671

/-! ## The decoder functions (from `userassist-parser.py`) -/

/-- `convert_filetime` (source lines 62–77): Windows FILETIME to UTC string.
`filetime == 0` and a zero derived microsecond count give `"Never"`;
the `except Exception` path (struct range error for values outside u64, or
`datetime` `OverflowError` past year 9999) gives `"Invalid timestamp"`. -/
def convert_filetime (filetime : Nat) : String :=
  if filetime = 0 then "Never"
  else if 18446744073709551616 ≤ filetime then "Invalid timestamp"
  else
    let microseconds := filetime / 10
    if microseconds = 0 then "Never"
    else if 265046774400000000 ≤ microseconds then "Invalid timestamp"
    else
      let secs := microseconds / 1000000
      formatDateTime (secs / 86400) (secs % 86400)

/-- `convert_focus_time_to_utc` (source lines 79–90): milliseconds offset from
1970-01-01 to UTC string; `0` gives `"Never"`, `datetime` overflow (past year
9999, caught by `except Exception`) gives `"Invalid focus time"`. -/
def convert_focus_time_to_utc (milliseconds : Nat) : String :=
  if milliseconds = 0 then "Never"
  else if 253402300800000 ≤ milliseconds then "Invalid focus time"
  else
    let secs := unixEpochDays * 86400 + milliseconds / 1000
    formatDateTime (secs / 86400) (secs % 86400)

/-- The ROT13 action on one character: `A`–`Z` and `a`–`z` rotate by 13
inside their case class, every other character is unchanged. -/
def rot13_char (c : Char) : Char :=
  if 65 ≤ c.toNat ∧ c.toNat ≤ 90 then Char.ofNat (65 + (c.toNat - 65 + 13) % 26)
  else if 97 ≤ c.toNat ∧ c.toNat ≤ 122 then Char.ofNat (97 + (c.toNat - 97 + 13) % 26)
  else c

/-- `rot13_decode` (source lines 58–60): `codecs.decode(s, 'rot_13')`,
the character-wise ROT13 substitution. -/
def rot13_decode (s : String) : String := ⟨s.data.map rot13_char⟩

/-- The partial record `parse_userassist_entry` returns: the Python dict
`{'count': …, 'focus_time'?: …, 'last_execution': …}` (no `focus_time` key in
the XP/Legacy branch). -/
structure ParsedEntry where
  count : Nat
  focus_time : Option String
  last_execution : String
deriving DecidableEq

/-- `parse_userassist_entry` (source lines 92–121): fixed-layout little-endian
extraction.  Win7+/"Modern" blobs need at least 72 bytes (`count` at [4,8),
raw focus milliseconds at [12,16), raw FILETIME at [60,68)); XP/"Legacy" blobs
need at least 16 bytes (`count` at [4,8), raw FILETIME at [8,16)).  Undersized
data falls through to `return None`. -/
def parse_userassist_entry (data : List Byte) (win7_format : Bool) : Option ParsedEntry :=
  if win7_format then
    if 72 ≤ data.length then
      some { count := le_bytes (pySlice data 4 8),
             focus_time := some (convert_focus_time_to_utc (le_bytes (pySlice data 12 16))),
             last_execution := convert_filetime (le_bytes (pySlice data 60 68)) }
    else none
  else
    if 16 ≤ data.length then
      some { count := le_bytes (pySlice data 4 8),
             focus_time := none,
             last_execution := convert_filetime (le_bytes (pySlice data 8 16)) }
    else none

/-- The two blob layouts (spec name `FormatVersion`). -/
inductive FormatVersion where
  | Legacy
  | Modern
deriving DecidableEq

/-- The driver's format decision (source lines 144–148): `win7_format` is
`version_value >= 5` when a `Version` value exists, `False` when the lookup
raises `RegistryValueNotFoundException`. -/
def win7_of_version : Option Nat → Bool
  | none => false
  | some v => decide (5 ≤ v)

/-- The same decision as a `FormatVersion` tag (spec name `select_format`). -/
def select_format (v : Option Nat) : FormatVersion :=
  if win7_of_version v then .Modern else .Legacy

/-- The record the driver emits (CSV/JSON row of `parse_userassist`). -/
structure UserAssistEntry where
  username : String
  name : String
  last_execution : String
  guid : String
  count : Nat
  focus_time : String
  source_file : String
deriving DecidableEq

/-- The per-value body of the driver `parse_userassist` (source lines 153–173):
skip empty data (`if not data: continue`), decode the name, parse the blob, and
on success assemble the emitted record, with `parsed_data.get('focus_time', 'N/A')`
for the focus-time column. -/
def parse_userassist_value (username guid source_file name : String)
    (data : List Byte) (win7_format : Bool) : Option UserAssistEntry :=
  if data.isEmpty then none
  else
    match parse_userassist_entry data win7_format with
    | none => none
    | some p =>
      some { username := username
             name := rot13_decode name
             last_execution := p.last_execution
             guid := guid
             count := p.count
             focus_time := p.focus_time.getD "N/A"
             source_file := source_file }

/-- Shape test for `YYYY-MM-DD HH:MM:SS`: is `c` a decimal digit? -/
def isDigitChar (c : Char) : Bool := decide (48 ≤ c.toNat) && decide (c.toNat ≤ 57)

/-- Shape of a 19-character `YYYY-MM-DD HH:MM:SS` timestamp rendering. -/
def tsShape : List Char → Bool
  | [y1, y2, y3, y4, a1, b1, b2, a2, c1, c2, a3, d1, d2, a4, e1, e2, a5, f1, f2] =>
    isDigitChar y1 && isDigitChar y2 && isDigitChar y3 && isDigitChar y4 &&
    (a1 == '-') && isDigitChar b1 && isDigitChar b2 && (a2 == '-') &&
    isDigitChar c1 && isDigitChar c2 && (a3 == ' ') && isDigitChar d1 && isDigitChar d2 &&
    (a4 == ':') && isDigitChar e1 && isDigitChar e2 && (a5 == ':') &&
    isDigitChar f1 && isDigitChar f2
  | _ => false

/-- A string is a well-formed `YYYY-MM-DD HH:MM:SS` UTC timestamp rendering. -/
def isTimestampString (s : String) : Bool := tsShape s.data

/-- The explicit marker strings the driver can place in a time field:
the two overflow markers of the converters and the legacy-format
"not applicable" marker. -/
def invalid_markers : List String := ["Invalid timestamp", "Invalid focus time", "N/A"]

/-- A 72-byte all-zero Modern-format blob. -/
def modernZeroBlob : List Byte := List.replicate 72 0

/-- A 16-byte Legacy-format blob with `run_count` bytes `[05,00,00,00]` and
zero FILETIME ticks. -/
def legacySampleBlob : List Byte := [0, 0, 0, 0, 5, 0, 0, 0, 0, 0, 0, 0, 0, 0, 0, 0]

/-! ## Civil-calendar components (proof mirrors of `civilFromDays`)

Named projections of the intermediate values of `civilFromDays`, used to reason
about it: day/era of the 146097-day cycle, year of era, day of (March-based)
year, shifted month, and the final year/month/day. -/

def yoeOf (doe : Nat) : Nat := (doe - doe / 1460 + doe / 36524 - doe / 146096) / 365

def startOfYoe (y : Nat) : Nat := 365 * y + y / 4 - y / 100

def doeOf (n : Nat) : Nat := (n + 584694) % 146097

def eraOf (n : Nat) : Nat := (n + 584694) / 146097

def doyOf (n : Nat) : Nat := doeOf n - startOfYoe (yoeOf (doeOf n))

def mpOf (n : Nat) : Nat := (5 * doyOf n + 2) / 153

def mOf (n : Nat) : Nat := if mpOf n < 10 then mpOf n + 3 else mpOf n - 9

def dOf (n : Nat) : Nat := doyOf n - (153 * mpOf n + 2) / 5 + 1

def yOf (n : Nat) : Nat :=
  if mOf n ≤ 2 then yoeOf (doeOf n) + eraOf n * 400 + 1 else yoeOf (doeOf n) + eraOf n * 400

def SDays (Y : Nat) : Nat := 365 * Y + Y / 4 - Y / 100 + Y / 400

def yiOf (n : Nat) : Nat := yoeOf (doeOf n) + eraOf n * 400

theorem char_toNat_ofNat {n : Nat} (h : n < 55296) : (Char.ofNat n).toNat = n := by
  have hv : n.isValidChar := Or.inl h
  rw [Char.ofNat, dif_pos hv]
  rfl

theorem isDigitChar_digitChar (n : Nat) : isDigitChar (digitChar n) = true := by
  have h : (digitChar n).toNat = 48 + n % 10 := char_toNat_ofNat (by omega)
  simp [isDigitChar, h]
  omega

theorem isTimestampString_formatDateTime (days sod : Nat) :
    isTimestampString (formatDateTime days sod) = true := by
  show tsShape _ = true
  simp [formatDateTime, pad4, pad2, tsShape, isDigitChar_digitChar]

theorem convert_filetime_cases (t : Nat) :
    isTimestampString (convert_filetime t) = true ∨ convert_filetime t = "Never" ∨
      convert_filetime t = "Invalid timestamp" := by
  unfold convert_filetime
  split
  · simp
  · split
    · simp
    · dsimp only
      split
      · simp
      · split
        · simp
        · exact Or.inl (isTimestampString_formatDateTime _ _)

theorem convert_focus_time_cases (m : Nat) :
    isTimestampString (convert_focus_time_to_utc m) = true ∨
      convert_focus_time_to_utc m = "Never" ∨
      convert_focus_time_to_utc m = "Invalid focus time" := by
  unfold convert_focus_time_to_utc
  split
  · simp
  · split
    · simp
    · dsimp only
      exact Or.inl (isTimestampString_formatDateTime _ _)

theorem rot13_char_invol (c : Char) : rot13_char (rot13_char c) = c := by
  unfold rot13_char
  by_cases h1 : 65 ≤ c.toNat ∧ c.toNat ≤ 90
  · rw [if_pos h1]
    have ht : (Char.ofNat (65 + (c.toNat - 65 + 13) % 26)).toNat
        = 65 + (c.toNat - 65 + 13) % 26 := char_toNat_ofNat (by omega)
    rw [if_pos (by rw [ht]; omega)]
    have harg : 65 + ((Char.ofNat (65 + (c.toNat - 65 + 13) % 26)).toNat - 65 + 13) % 26
        = c.toNat := by rw [ht]; omega
    rw [harg, Char.ofNat_toNat]
  · rw [if_neg h1]
    by_cases h2 : 97 ≤ c.toNat ∧ c.toNat ≤ 122
    · rw [if_pos h2]
      have ht : (Char.ofNat (97 + (c.toNat - 97 + 13) % 26)).toNat
          = 97 + (c.toNat - 97 + 13) % 26 := char_toNat_ofNat (by omega)
      rw [if_neg (by rw [ht]; omega), if_pos (by rw [ht]; omega)]
      have harg : 97 + ((Char.ofNat (97 + (c.toNat - 97 + 13) % 26)).toNat - 97 + 13) % 26
          = c.toNat := by rw [ht]; omega
      rw [harg, Char.ofNat_toNat]
    · rw [if_neg h2, if_neg h1, if_neg h2]

/-- The fields `parse_userassist_entry` can return: the last execution string is
always a `convert_filetime` value, and the focus-time field is absent (Legacy)
or a `convert_focus_time_to_utc` value (Modern). -/
theorem parse_entry_field_sources (data : List Byte) (w7 : Bool) (p : ParsedEntry)
    (h : parse_userassist_entry data w7 = some p) :
    (∃ t, p.last_execution = convert_filetime t) ∧
    (p.focus_time = none ∨ ∃ m, p.focus_time = some (convert_focus_time_to_utc m)) := by
  unfold parse_userassist_entry at h
  split at h
  · split at h
    · simp only [Option.some.injEq] at h
      subst h
      exact ⟨⟨_, rfl⟩, Or.inr ⟨_, rfl⟩⟩
    · exact absurd h (by simp)
  · split at h
    · simp only [Option.some.injEq] at h
      subst h
      exact ⟨⟨_, rfl⟩, Or.inl rfl⟩
    · exact absurd h (by simp)

/-- C1: `parse_userassist_entry` extracts the documented little-endian fields:
for Modern (win7) blobs of at least 72 bytes, `count` from bytes [4,8),
raw focus milliseconds from [12,16), raw FILETIME from [60,68); for Legacy
blobs of at least 16 bytes, `count` from [4,8) and raw FILETIME from [8,16)
with no focus-time field.  A 72-byte all-zero Modern blob gives
`run_count = 0`, `last_execution = "Never"`, `focus_time = "Never"`; a 16-byte
Legacy blob with count bytes `[05,00,00,00]` and zero ticks gives
`run_count = 5`, `last_execution = "Never"` and no focus-time field. -/
theorem parse_userassist_entry_extracts_fields :
    (∀ data : List Byte, 72 ≤ data.length →
      parse_userassist_entry data true =
        some { count := le_bytes (pySlice data 4 8),
               focus_time := some (convert_focus_time_to_utc (le_bytes (pySlice data 12 16))),
               last_execution := convert_filetime (le_bytes (pySlice data 60 68)) }) ∧
    (∀ data : List Byte, 16 ≤ data.length →
      parse_userassist_entry data false =
        some { count := le_bytes (pySlice data 4 8),
               focus_time := none,
               last_execution := convert_filetime (le_bytes (pySlice data 8 16)) }) ∧
    parse_userassist_entry modernZeroBlob true =
      some { count := 0, focus_time := some "Never", last_execution := "Never" } ∧
    parse_userassist_entry legacySampleBlob false =
      some { count := 5, focus_time := none, last_execution := "Never" } := by
  refine ⟨fun data h => ?_, fun data h => ?_, by decide, by decide⟩
  · simp [parse_userassist_entry, if_pos h]
  · simp [parse_userassist_entry, if_pos h]

theorem parse_userassist_entry_extracts_fields_witness :
    parse_userassist_entry modernZeroBlob true =
      some { count := le_bytes (pySlice modernZeroBlob 4 8),
             focus_time :=
               some (convert_focus_time_to_utc (le_bytes (pySlice modernZeroBlob 12 16))),
             last_execution := convert_filetime (le_bytes (pySlice modernZeroBlob 60 68)) } ∧
    parse_userassist_entry legacySampleBlob false =
      some { count := le_bytes (pySlice legacySampleBlob 4 8),
             focus_time := none,
             last_execution := convert_filetime (le_bytes (pySlice legacySampleBlob 8 16)) } :=
  ⟨parse_userassist_entry_extracts_fields.1 modernZeroBlob (by decide),
   parse_userassist_entry_extracts_fields.2.1 legacySampleBlob (by decide)⟩

/-- C2: `parse_userassist_entry` returns no result exactly when the blob is
shorter than the selected format's minimum length (72 bytes Modern, 16 bytes
Legacy); it is a total function, so no failure can propagate to the caller. -/
theorem parse_userassist_entry_undersized (data : List Byte) :
    (parse_userassist_entry data true = none ↔ data.length < 72) ∧
    (parse_userassist_entry data false = none ↔ data.length < 16) := by
  constructor
  · by_cases h : 72 ≤ data.length
    · simp [parse_userassist_entry, h]
    · simp [parse_userassist_entry, h]
      omega
  · by_cases h : 16 ≤ data.length
    · simp [parse_userassist_entry, h]
    · simp [parse_userassist_entry, h]
      omega

/-- C3 counterexample: the tick value `132513984000000000` named by the spec is
*not* the FILETIME of 2021-01-01T00:00:00Z; `convert_filetime` renders it as
`"2020-12-02 16:00:00"`. -/
theorem convert_filetime_spec_value_counterexample :
    convert_filetime 132513984000000000 = "2020-12-02 16:00:00" ∧
    convert_filetime 132513984000000000 ≠ "2021-01-01 00:00:00" := by
  constructor
  · decide
  · decide

/-- C3 (amended): `convert_filetime` returns `"Never"` when the tick count or
the derived microsecond count `ticks / 10` is zero; when the result is
representable it renders the instant 1601-01-01T00:00:00Z plus `ticks / 10`
microseconds as `YYYY-MM-DD HH:MM:SS`; the FILETIME of 2021-01-01T00:00:00Z,
which is `132539328000000000`, maps to `"2021-01-01 00:00:00"`. -/
theorem convert_filetime_spec :
    (∀ t : Nat, t / 10 = 0 → convert_filetime t = "Never") ∧
    (∀ t : Nat, 0 < t / 10 → t / 10 < 265046774400000000 → t < 18446744073709551616 →
      convert_filetime t =
        formatDateTime (t / 10 / 1000000 / 86400) (t / 10 / 1000000 % 86400)) ∧
    convert_filetime 0 = "Never" ∧
    convert_filetime 132539328000000000 = "2021-01-01 00:00:00" := by
  refine ⟨fun t h => ?_, fun t h1 h2 h3 => ?_, by decide, by decide⟩
  · unfold convert_filetime
    rcases Nat.eq_zero_or_pos t with rfl | hpos
    · simp
    · rw [if_neg (by omega), if_neg (by omega), if_pos h]
  · unfold convert_filetime
    rw [if_neg (by omega), if_neg (by omega), if_neg (by omega), if_neg (by omega)]

theorem convert_filetime_spec_witness :
    convert_filetime 7 = "Never" ∧
    convert_filetime 864000000000 =
      formatDateTime (864000000000 / 10 / 1000000 / 86400)
        (864000000000 / 10 / 1000000 % 86400) :=
  ⟨convert_filetime_spec.1 7 (by decide),
   convert_filetime_spec.2.1 864000000000 (by decide) (by decide) (by decide)⟩

/-- C4: `convert_focus_time_to_utc` returns `"Never"` on `0`; for a nonzero,
representable millisecond count it renders the instant 1970-01-01T00:00:00Z
plus `ms` milliseconds (truncated to seconds) as `YYYY-MM-DD HH:MM:SS`. -/
theorem convert_focus_time_spec :
    convert_focus_time_to_utc 0 = "Never" ∧
    (∀ ms : Nat, 0 < ms → ms < 253402300800000 →
      convert_focus_time_to_utc ms =
        formatDateTime ((unixEpochDays * 86400 + ms / 1000) / 86400)
          ((unixEpochDays * 86400 + ms / 1000) % 86400)) ∧
    convert_focus_time_to_utc 1000 = "1970-01-01 00:00:01" ∧
    convert_focus_time_to_utc 86400000 = "1970-01-02 00:00:00" := by
  refine ⟨by decide, fun ms h1 h2 => ?_, by decide, by decide⟩
  unfold convert_focus_time_to_utc
  rw [if_neg (by omega), if_neg (by omega)]

theorem convert_focus_time_spec_witness :
    convert_focus_time_to_utc 43200000 =
      formatDateTime ((unixEpochDays * 86400 + 43200000 / 1000) / 86400)
        ((unixEpochDays * 86400 + 43200000 / 1000) % 86400) :=
  convert_focus_time_spec.2.1 43200000 (by decide) (by decide)

/-- C5: on inputs whose converted instant falls outside the representable
`datetime` range (past 9999-12-31 23:59:59, or outside the u64 range the
struct round-trip accepts), the converters return their marker strings
`"Invalid timestamp"` / `"Invalid focus time"`; both are total functions, so
no exception can propagate. -/
theorem converters_overflow_markers :
    (∀ t : Nat, 265046774400000000 ≤ t / 10 → convert_filetime t = "Invalid timestamp") ∧
    (∀ t : Nat, 18446744073709551616 ≤ t → convert_filetime t = "Invalid timestamp") ∧
    (∀ ms : Nat, 253402300800000 ≤ ms → convert_focus_time_to_utc ms = "Invalid focus time") := by
  refine ⟨fun t h => ?_, fun t h => ?_, fun ms h => ?_⟩
  · unfold convert_filetime
    rw [if_neg (by omega)]
    by_cases h64 : 18446744073709551616 ≤ t
    · rw [if_pos h64]
    · rw [if_neg h64, if_neg (by omega), if_pos h]
  · unfold convert_filetime
    rw [if_neg (by omega), if_pos h]
  · unfold convert_focus_time_to_utc
    rw [if_neg (by omega), if_pos h]

theorem converters_overflow_markers_witness :
    convert_filetime 2650467744000000000 = "Invalid timestamp" ∧
    convert_filetime 18446744073709551616 = "Invalid timestamp" ∧
    convert_focus_time_to_utc 253402300800000 = "Invalid focus time" :=
  ⟨converters_overflow_markers.1 2650467744000000000 (by decide),
   converters_overflow_markers.2.1 18446744073709551616 (by decide),
   converters_overflow_markers.2.2 253402300800000 (by decide)⟩

/-- C6: format selection is Legacy for an absent version marker, Modern for a
marker at least 5, Legacy otherwise; in particular for markers `4`, `5`, `7`.
The function is a total match/if with no failure path. -/
theorem select_format_spec :
    select_format none = FormatVersion.Legacy ∧
    (∀ v : Nat, 5 ≤ v → select_format (some v) = FormatVersion.Modern) ∧
    (∀ v : Nat, v < 5 → select_format (some v) = FormatVersion.Legacy) ∧
    select_format (some 4) = FormatVersion.Legacy ∧
    select_format (some 5) = FormatVersion.Modern ∧
    select_format (some 7) = FormatVersion.Modern := by
  refine ⟨by decide, fun v h => ?_, fun v h => ?_, by decide, by decide, by decide⟩
  · simp [select_format, win7_of_version, h]
  · simp [select_format, win7_of_version, Nat.not_le.mpr h]

theorem select_format_spec_witness :
    select_format (some 6) = FormatVersion.Modern ∧
    select_format (some 3) = FormatVersion.Legacy :=
  ⟨select_format_spec.2.1 6 (by decide), select_format_spec.2.2.1 3 (by decide)⟩

/-- C7: the name decoder is its own inverse on every string; one application
rotates uppercase and lowercase letters by 13 inside their case class
(case-preserving) and fixes every non-alphabetic character; the empty string
decodes to itself. -/
theorem rot13_decode_self_inverse :
    (∀ s : String, rot13_decode (rot13_decode s) = s) ∧
    (∀ c : Char, 65 ≤ c.toNat ∧ c.toNat ≤ 90 →
      (rot13_char c).toNat = 65 + (c.toNat - 65 + 13) % 26 ∧
      65 ≤ (rot13_char c).toNat ∧ (rot13_char c).toNat ≤ 90) ∧
    (∀ c : Char, 97 ≤ c.toNat ∧ c.toNat ≤ 122 →
      (rot13_char c).toNat = 97 + (c.toNat - 97 + 13) % 26 ∧
      97 ≤ (rot13_char c).toNat ∧ (rot13_char c).toNat ≤ 122) ∧
    (∀ c : Char, ¬(65 ≤ c.toNat ∧ c.toNat ≤ 90) → ¬(97 ≤ c.toNat ∧ c.toNat ≤ 122) →
      rot13_char c = c) ∧
    rot13_decode "" = "" := by
  refine ⟨fun s => ?_, fun c h => ?_, fun c h => ?_, fun c h1 h2 => ?_, rfl⟩
  · cases s with
    | mk l =>
      show (⟨(l.map rot13_char).map rot13_char⟩ : String) = ⟨l⟩
      rw [List.map_map]
      have heq : l.map (rot13_char ∘ rot13_char) = l.map id :=
        List.map_congr_left fun c _ => rot13_char_invol c
      rw [heq, List.map_id]
  · have ht : (rot13_char c).toNat = 65 + (c.toNat - 65 + 13) % 26 := by
      unfold rot13_char
      rw [if_pos h]
      exact char_toNat_ofNat (by omega)
    exact ⟨ht, by omega, by omega⟩
  · have ht : (rot13_char c).toNat = 97 + (c.toNat - 97 + 13) % 26 := by
      unfold rot13_char
      rw [if_neg (by omega), if_pos h]
      exact char_toNat_ofNat (by omega)
    exact ⟨ht, by omega, by omega⟩
  · unfold rot13_char
    rw [if_neg h1, if_neg h2]

theorem rot13_decode_self_inverse_witness :
    rot13_decode (rot13_decode "Hello, World! 123") = "Hello, World! 123" ∧
    (rot13_char 'A').toNat = 65 + (('A').toNat - 65 + 13) % 26 ∧
    rot13_char '!' = '!' :=
  ⟨rot13_decode_self_inverse.1 "Hello, World! 123",
   (rot13_decode_self_inverse.2.1 'A' (by decide)).1,
   rot13_decode_self_inverse.2.2.2.1 '!' (by decide) (by decide)⟩

/-- C8: every record the driver emits has both time fields populated with a
string that is a well-formed `YYYY-MM-DD HH:MM:SS` timestamp, the sentinel
`"Never"`, or one of the explicit marker strings of `invalid_markers`
(the converters' overflow markers and the legacy not-applicable marker). -/
theorem emitted_time_fields_wellformed
    (u g src nm : String) (data : List Byte) (w7 : Bool) (r : UserAssistEntry)
    (h : parse_userassist_value u g src nm data w7 = some r) :
    (isTimestampString r.last_execution = true ∨ r.last_execution = "Never" ∨
      r.last_execution ∈ invalid_markers) ∧
    (isTimestampString r.focus_time = true ∨ r.focus_time = "Never" ∨
      r.focus_time ∈ invalid_markers) := by
  unfold parse_userassist_value at h
  split at h
  · exact absurd h (by simp)
  · cases hp : parse_userassist_entry data w7 with
    | none => rw [hp] at h; exact absurd h (by simp)
    | some p =>
      rw [hp] at h
      simp only [Option.some.injEq] at h
      subst h
      obtain ⟨⟨t, hle⟩, hfo⟩ := parse_entry_field_sources data w7 p hp
      constructor
      · show isTimestampString p.last_execution = true ∨ p.last_execution = "Never" ∨
          p.last_execution ∈ invalid_markers
        rw [hle]
        rcases convert_filetime_cases t with h1 | h1 | h1
        · exact Or.inl h1
        · exact Or.inr (Or.inl h1)
        · exact Or.inr (Or.inr (by simp [invalid_markers, h1]))
      · show isTimestampString (p.focus_time.getD "N/A") = true ∨
          p.focus_time.getD "N/A" = "Never" ∨ p.focus_time.getD "N/A" ∈ invalid_markers
        rcases hfo with hna | ⟨m, hm⟩
        · rw [hna]
          exact Or.inr (Or.inr (by simp [invalid_markers]))
        · rw [hm]
          rcases convert_focus_time_cases m with h1 | h1 | h1
          · exact Or.inl (by simpa using h1)
          · exact Or.inr (Or.inl (by simpa using h1))
          · exact Or.inr (Or.inr (by simp [invalid_markers, h1]))

theorem emitted_time_fields_wellformed_witness :
    (isTimestampString (UserAssistEntry.last_execution
        { username := "u", name := "Foo", last_execution := "Never", guid := "g",
          count := 0, focus_time := "Never", source_file := "f" }) = true ∨
      UserAssistEntry.last_execution
        { username := "u", name := "Foo", last_execution := "Never", guid := "g",
          count := 0, focus_time := "Never", source_file := "f" } = "Never" ∨
      UserAssistEntry.last_execution
        { username := "u", name := "Foo", last_execution := "Never", guid := "g",
          count := 0, focus_time := "Never", source_file := "f" } ∈ invalid_markers) ∧
    (isTimestampString (UserAssistEntry.focus_time
        { username := "u", name := "Foo", last_execution := "Never", guid := "g",
          count := 0, focus_time := "Never", source_file := "f" }) = true ∨
      UserAssistEntry.focus_time
        { username := "u", name := "Foo", last_execution := "Never", guid := "g",
          count := 0, focus_time := "Never", source_file := "f" } = "Never" ∨
      UserAssistEntry.focus_time
        { username := "u", name := "Foo", last_execution := "Never", guid := "g",
          count := 0, focus_time := "Never", source_file := "f" } ∈ invalid_markers) :=
  emitted_time_fields_wellformed "u" "g" "f" "Sbb" modernZeroBlob true
    { username := "u", name := "Foo", last_execution := "Never", guid := "g",
      count := 0, focus_time := "Never", source_file := "f" } (by decide)

/-- C10: a record the driver emits for a Legacy-format value always carries the
literal `'N/A'` in its focus-time column, and `'N/A'` is not a timestamp
rendering, not `"Never"`, and not one of the converters' overflow markers. -/
theorem legacy_focus_time_is_na :
    (∀ u g src nm : String, ∀ data : List Byte, ∀ r : UserAssistEntry,
      parse_userassist_value u g src nm data false = some r → r.focus_time = "N/A") ∧
    isTimestampString "N/A" = false ∧
    "N/A" ≠ "Never" ∧ "N/A" ≠ "Invalid timestamp" ∧ "N/A" ≠ "Invalid focus time" := by
  refine ⟨fun u g src nm data r h => ?_, by decide, by decide, by decide, by decide⟩
  unfold parse_userassist_value at h
  split at h
  · exact absurd h (by simp)
  · cases hp : parse_userassist_entry data false with
    | none => rw [hp] at h; exact absurd h (by simp)
    | some p =>
      rw [hp] at h
      simp only [Option.some.injEq] at h
      subst h
      have hnone : p.focus_time = none := by
        unfold parse_userassist_entry at hp
        rw [if_neg (by decide : ¬((false : Bool) = true))] at hp
        split at hp
        · simp only [Option.some.injEq] at hp
          subst hp
          rfl
        · exact absurd hp (by simp)
      show p.focus_time.getD "N/A" = "N/A"
      rw [hnone]
      rfl

theorem legacy_focus_time_is_na_witness :
    UserAssistEntry.focus_time
      { username := "u", name := "Foo", last_execution := "Never", guid := "g",
        count := 5, focus_time := "N/A", source_file := "f" } = "N/A" :=
  legacy_focus_time_is_na.1 "u" "g" "f" "Sbb" legacySampleBlob
    { username := "u", name := "Foo", last_execution := "Never", guid := "g",
      count := 5, focus_time := "N/A", source_file := "f" } (by decide)

theorem civilFromDays_eq (n : Nat) : civilFromDays n = (yOf n, mOf n, dOf n) := rfl

/-- Correctness of the year-of-era formula on one 146097-day cycle: the
computed year contains the day, years are 0–399. -/
theorem yoeOf_correct (doe : Nat) (h : doe ≤ 146096) :
    startOfYoe (yoeOf doe) ≤ doe ∧
    (yoeOf doe ≤ 398 → doe < startOfYoe (yoeOf doe + 1)) ∧
    yoeOf doe ≤ 399 := by
  unfold yoeOf startOfYoe
  rcases Nat.lt_or_ge doe 1460 with hr | hr1
  · omega
  · rcases Nat.lt_or_ge doe 36524 with hr | hr2
    · rw [Nat.div_eq_of_lt (show doe < 36524 by omega),
          Nat.div_eq_of_lt (show doe < 146096 by omega)]
      simp only [Nat.add_zero, Nat.sub_zero]
      have k1 : (doe - doe / 1460) / 365 / 4 = (doe - doe / 1460) / 1460 :=
        Nat.div_div_eq_div_mul _ 365 4
      have hg : doe / 1460 ≤ 25 := by omega
      have ha : (doe - doe / 1460) / 365 ≤ 99 := by omega
      have h100 : (doe - doe / 1460) / 365 / 100 = 0 := Nat.div_eq_of_lt (by omega)
      rcases Nat.lt_or_ge ((doe - doe / 1460) / 365) 99 with hb | hb
      · have h101 : ((doe - doe / 1460) / 365 + 1) / 100 = 0 := Nat.div_eq_of_lt (by omega)
        omega
      · have h99 : (doe - doe / 1460) / 365 = 99 := by omega
        omega
    · rcases Nat.lt_or_ge doe 146096 with hr | hr3
      · rw [Nat.div_eq_of_lt (show doe < 146096 by omega)]
        simp only [Nat.sub_zero]
        have k1 : (doe - doe / 1460 + doe / 36524) / 365 / 4
            = (doe - doe / 1460 + doe / 36524) / 1460 :=
          Nat.div_div_eq_div_mul _ 365 4
        have k2 : (doe - doe / 1460 + doe / 36524) / 365 / 100
            = (doe - doe / 1460 + doe / 36524) / 36500 :=
          Nat.div_div_eq_div_mul _ 365 100
        have hg : doe / 1460 ≤ 100 := by omega
        have hc : 1 ≤ doe / 36524 ∧ doe / 36524 ≤ 3 := by omega
        have hfg : doe / 1460 ≤ ((doe - doe / 1460 + doe / 36524) / 365 + 1) / 4 := by
          omega
        rcases Nat.lt_or_ge ((doe - doe / 1460 + doe / 36524) / 365)
            (100 * (doe / 36524) + 99) with hd | hd
        · omega
        · omega
      · have h46 : doe = 146096 := by omega
        subst h46
        omega

theorem SDays_split (era yoe : Nat) (h : yoe ≤ 399) :
    SDays (yoe + era * 400) = era * 146097 + startOfYoe yoe := by
  unfold SDays startOfYoe
  have e4 : (yoe + era * 400) / 4 = yoe / 4 + era * 100 := by omega
  have e100 : (yoe + era * 400) / 100 = yoe / 100 + era * 4 := by omega
  have e400 : (yoe + era * 400) / 400 = era := by omega
  omega

theorem SDays_mono {A B : Nat} (h : A ≤ B) : SDays A ≤ SDays B := by
  unfold SDays
  have h4 : A / 4 ≤ B / 4 := Nat.div_le_div_right h
  have h100 : A / 100 ≤ B / 100 := Nat.div_le_div_right h
  have h400 : A / 400 ≤ B / 400 := Nat.div_le_div_right h
  omega

theorem SDays_bounds (n : Nat) :
    SDays (yiOf n) ≤ n + 584694 ∧ n + 584694 < SDays (yiOf n + 1) ∧
    n + 584694 = SDays (yiOf n) + doyOf n ∧ doyOf n ≤ 365 := by
  have hz : n + 584694 = 146097 * eraOf n + doeOf n ∧ doeOf n ≤ 146096 := by
    unfold eraOf doeOf
    omega
  obtain ⟨hy1, hy2, hy3⟩ := yoeOf_correct (doeOf n) hz.2
  have hst : startOfYoe (yoeOf (doeOf n)) ≤ 365 * 399 + 100 := by
    unfold startOfYoe
    have h4 : yoeOf (doeOf n) / 4 ≤ 399 / 4 := Nat.div_le_div_right hy3
    omega
  have hs1 : SDays (yiOf n) = eraOf n * 146097 + startOfYoe (yoeOf (doeOf n)) :=
    SDays_split (eraOf n) (yoeOf (doeOf n)) hy3
  refine ⟨by omega, ?_, ?_, ?_⟩
  · rcases Nat.lt_or_ge (yoeOf (doeOf n)) 399 with h398 | h399
    · have hs2 : SDays (yiOf n + 1)
          = eraOf n * 146097 + startOfYoe (yoeOf (doeOf n) + 1) := by
        have := SDays_split (eraOf n) (yoeOf (doeOf n) + 1) (by omega)
        unfold yiOf
        rw [show yoeOf (doeOf n) + eraOf n * 400 + 1
            = yoeOf (doeOf n) + 1 + eraOf n * 400 by omega]
        exact this
      have := hy2 (by omega)
      omega
    · have h399e : yoeOf (doeOf n) = 399 := by omega
      have hs2 : SDays (yiOf n + 1) = (eraOf n + 1) * 146097 + startOfYoe 0 := by
        have := SDays_split (eraOf n + 1) 0 (by omega)
        unfold yiOf
        rw [show yoeOf (doeOf n) + eraOf n * 400 + 1
            = 0 + (eraOf n + 1) * 400 by omega]
        exact this
      unfold startOfYoe at hs2
      omega
  · unfold doyOf
    omega
  · unfold doyOf
    rcases Nat.lt_or_ge (yoeOf (doeOf n)) 399 with h398 | h399
    · have := hy2 (by omega)
      unfold startOfYoe at *
      have q1 : (yoeOf (doeOf n) + 1) / 4 ≤ yoeOf (doeOf n) / 4 + 1 := by omega
      omega
    · have h399e : yoeOf (doeOf n) = 399 := by omega
      rw [h399e]
      unfold startOfYoe
      omega

theorem yiOf_mono {n n' : Nat} (h : n ≤ n') : yiOf n ≤ yiOf n' := by
  by_contra hlt
  have h1 : yiOf n' + 1 ≤ yiOf n := by omega
  have h2 := SDays_mono h1
  have b1 := SDays_bounds n
  have b2 := SDays_bounds n'
  omega

theorem mp_facts (doy : Nat) (h : doy ≤ 365) :
    (5 * doy + 2) / 153 ≤ 11 ∧
    (153 * ((5 * doy + 2) / 153) + 2) / 5 ≤ doy ∧
    doy + 1 - (153 * ((5 * doy + 2) / 153) + 2) / 5 ≤ 31 ∧
    (306 ≤ doy ↔ 10 ≤ (5 * doy + 2) / 153) := by
  omega

theorem mOf_cases (n : Nat) :
    (mpOf n < 10 ∧ mOf n = mpOf n + 3) ∨ (10 ≤ mpOf n ∧ mOf n = mpOf n - 9) := by
  unfold mOf
  rcases Nat.lt_or_ge (mpOf n) 10 with h | h
  · exact Or.inl ⟨h, if_pos h⟩
  · exact Or.inr ⟨h, if_neg (by omega)⟩

theorem mOf_bounds (n : Nat) : 1 ≤ mOf n ∧ mOf n ≤ 12 ∧ (mOf n ≤ 2 ↔ 10 ≤ mpOf n) := by
  have hdoy : doyOf n ≤ 365 := (SDays_bounds n).2.2.2
  have hmp := (mp_facts (doyOf n) hdoy).1
  rcases mOf_cases n with ⟨h1, h2⟩ | ⟨h1, h2⟩ <;> (unfold mpOf at *; omega)

theorem dOf_bounds (n : Nat) : 1 ≤ dOf n ∧ dOf n ≤ 31 := by
  have hdoy : doyOf n ≤ 365 := (SDays_bounds n).2.2.2
  have hmp := mp_facts (doyOf n) hdoy
  unfold dOf mpOf
  omega

theorem yOf_cases (n : Nat) :
    (mOf n ≤ 2 ∧ yOf n = yiOf n + 1) ∨ (3 ≤ mOf n ∧ yOf n = yiOf n) := by
  unfold yOf yiOf
  rcases Nat.lt_or_ge 2 (mOf n) with h | h
  · exact Or.inr ⟨h, if_neg (by omega)⟩
  · exact Or.inl ⟨h, if_pos h⟩

theorem char_lt_iff {a b : Char} : a < b ↔ a.toNat < b.toNat := Iff.rfl

theorem digitChar_toNat (n : Nat) : (digitChar n).toNat = 48 + n % 10 :=
  char_toNat_ofNat (by omega)

theorem digitChar_lt {n m : Nat} (h : n % 10 < m % 10) : digitChar n < digitChar m := by
  rw [char_lt_iff, digitChar_toNat, digitChar_toNat]
  omega

theorem digitChar_congr {n m : Nat} (h : n % 10 = m % 10) : digitChar n = digitChar m := by
  unfold digitChar
  rw [h]

theorem lt_two_digits {u v : Nat} (h : u % 100 < v % 100) (r r' : List Char) :
    List.Lex (· < ·) (digitChar (u / 10) :: digitChar u :: r)
      (digitChar (v / 10) :: digitChar v :: r') := by
  rcases Nat.lt_or_ge ((u / 10) % 10) ((v / 10) % 10) with h1 | h1
  · exact List.Lex.rel (digitChar_lt h1)
  · have h2 : (u / 10) % 10 = (v / 10) % 10 := by omega
    have h3 : u % 10 < v % 10 := by omega
    rw [digitChar_congr h2]
    exact List.Lex.cons (List.Lex.rel (digitChar_lt h3))

theorem eq_two_digits {u v : Nat} (h : u % 100 = v % 100) :
    digitChar (u / 10) = digitChar (v / 10) ∧ digitChar u = digitChar v :=
  ⟨digitChar_congr (by omega), digitChar_congr (by omega)⟩

/-- Strict monotonicity of the civil triple in chronological order. -/
theorem civil_tuple_mono_strict {n n' : Nat} (h : n < n') :
    yOf n < yOf n' ∨
      (yOf n = yOf n' ∧ (mOf n < mOf n' ∨ (mOf n = mOf n' ∧ dOf n < dOf n'))) := by
  have hyi := yiOf_mono (Nat.le_of_lt h)
  have b1 := SDays_bounds n
  have b2 := SDays_bounds n'
  have hm1 := mOf_bounds n
  have hm2 := mOf_bounds n'
  have hq1 : (153 * mpOf n + 2) / 5 ≤ doyOf n := (mp_facts (doyOf n) b1.2.2.2).2.1
  have hq2 : (153 * mpOf n' + 2) / 5 ≤ doyOf n' := (mp_facts (doyOf n') b2.2.2.2).2.1
  rcases Nat.eq_or_lt_of_le hyi with he | hl
  · have hdoy : doyOf n < doyOf n' := by
      have hSe : SDays (yiOf n) = SDays (yiOf n') := by rw [he]
      omega
    have hmp : mpOf n ≤ mpOf n' := by
      unfold mpOf
      exact Nat.div_le_div_right (by omega)
    rcases mOf_cases n with ⟨hc1, hc2⟩ | ⟨hc1, hc2⟩ <;>
      rcases mOf_cases n' with ⟨hd1, hd2⟩ | ⟨hd1, hd2⟩
    · rcases yOf_cases n with ⟨hy1, hy2⟩ | ⟨hy1, hy2⟩
      · omega
      · rcases yOf_cases n' with ⟨hz1, hz2⟩ | ⟨hz1, hz2⟩
        · omega
        · rcases Nat.eq_or_lt_of_le hmp with hmpe | hmpl
          · refine Or.inr ⟨by omega, Or.inr ⟨by omega, ?_⟩⟩
            unfold dOf
            rw [hmpe]
            omega
          · exact Or.inr ⟨by omega, Or.inl (by omega)⟩
    · rcases yOf_cases n with ⟨hy1, hy2⟩ | ⟨hy1, hy2⟩
      · omega
      · rcases yOf_cases n' with ⟨hz1, hz2⟩ | ⟨hz1, hz2⟩
        · exact Or.inl (by omega)
        · omega
    · omega
    · rcases yOf_cases n with ⟨hy1, hy2⟩ | ⟨hy1, hy2⟩
      · rcases yOf_cases n' with ⟨hz1, hz2⟩ | ⟨hz1, hz2⟩
        · rcases Nat.eq_or_lt_of_le hmp with hmpe | hmpl
          · refine Or.inr ⟨by omega, Or.inr ⟨by omega, ?_⟩⟩
            unfold dOf
            rw [hmpe]
            omega
          · exact Or.inr ⟨by omega, Or.inl (by omega)⟩
        · omega
      · omega
  · rcases yOf_cases n with ⟨hy1, hy2⟩ | ⟨hy1, hy2⟩ <;>
      rcases yOf_cases n' with ⟨hz1, hz2⟩ | ⟨hz1, hz2⟩
    · exact Or.inl (by omega)
    · rcases Nat.eq_or_lt_of_le (show yOf n ≤ yOf n' by omega) with hye | hyl
      · exact Or.inr ⟨hye, Or.inl (by omega)⟩
      · exact Or.inl hyl
    · exact Or.inl (by omega)
    · exact Or.inl (by omega)

theorem yOf_le_9999 {days : Nat} (h : days ≤ 3067670) : yOf days ≤ 9999 := by
  have hmax : yOf 3067670 = 9999 := by decide
  rcases Nat.eq_or_lt_of_le h with he | hl
  · rw [he, hmax]
  · rcases civil_tuple_mono_strict hl with h1 | ⟨h1, _⟩ <;> omega

theorem formatDateTime_data (days sod : Nat) :
    (formatDateTime days sod).data =
      digitChar (yOf days / 100 / 10) :: digitChar (yOf days / 100) ::
      digitChar (yOf days / 10) :: digitChar (yOf days) :: '-' ::
      digitChar (mOf days / 10) :: digitChar (mOf days) :: '-' ::
      digitChar (dOf days / 10) :: digitChar (dOf days) :: ' ' ::
      digitChar (sod / 3600 / 10) :: digitChar (sod / 3600) :: ':' ::
      digitChar (sod % 3600 / 60 / 10) :: digitChar (sod % 3600 / 60) :: ':' ::
      digitChar (sod % 60 / 10) :: digitChar (sod % 60) :: [] := by
  simp [formatDateTime, civilFromDays_eq, pad4, pad2]

theorem formatDateTime_strict {days days' sod sod' : Nat}
    (hy : yOf days ≤ 9999) (hy' : yOf days' ≤ 9999)
    (hm : mOf days ≤ 99) (hm' : mOf days' ≤ 99)
    (hd : dOf days ≤ 99) (hd' : dOf days' ≤ 99)
    (hs : sod < 86400) (hs' : sod' < 86400)
    (h : yOf days < yOf days' ∨ (yOf days = yOf days' ∧ (mOf days < mOf days' ∨
         (mOf days = mOf days' ∧ (dOf days < dOf days' ∨
         (dOf days = dOf days' ∧ sod < sod')))))) :
    List.Lex (· < ·) (formatDateTime days sod).data (formatDateTime days' sod').data := by
  rw [formatDateTime_data, formatDateTime_data]
  rcases h with hY | ⟨hYe, h⟩
  · rcases Nat.lt_or_ge (yOf days / 100) (yOf days' / 100) with h1 | h1
    · exact lt_two_digits (by omega) _ _
    · have h2 : yOf days / 100 = yOf days' / 100 := by omega
      obtain ⟨e1, e2⟩ := eq_two_digits (show yOf days / 100 % 100
          = yOf days' / 100 % 100 by omega)
      rw [e1, e2]
      exact List.Lex.cons (List.Lex.cons (lt_two_digits (by omega) _ _))
  · obtain ⟨e1, e2⟩ := eq_two_digits (show yOf days / 100 % 100
        = yOf days' / 100 % 100 by omega)
    obtain ⟨e3, e4⟩ := eq_two_digits (show yOf days % 100 = yOf days' % 100 by omega)
    rw [e1, e2, e3, e4]
    refine List.Lex.cons (List.Lex.cons (List.Lex.cons (List.Lex.cons
      (List.Lex.cons ?_))))
    rcases h with hM | ⟨hMe, h⟩
    · exact lt_two_digits (by omega) _ _
    · obtain ⟨e5, e6⟩ := eq_two_digits (show mOf days % 100 = mOf days' % 100 by omega)
      rw [e5, e6]
      refine List.Lex.cons (List.Lex.cons (List.Lex.cons ?_))
      rcases h with hD | ⟨hDe, hS⟩
      · exact lt_two_digits (by omega) _ _
      · obtain ⟨e7, e8⟩ := eq_two_digits (show dOf days % 100 = dOf days' % 100 by omega)
        rw [e7, e8]
        refine List.Lex.cons (List.Lex.cons (List.Lex.cons ?_))
        rcases Nat.lt_or_ge (sod / 3600) (sod' / 3600) with hH | hH
        · exact lt_two_digits (by omega) _ _
        · have hHe : sod / 3600 = sod' / 3600 := by omega
          obtain ⟨e9, e10⟩ := eq_two_digits (show sod / 3600 % 100
              = sod' / 3600 % 100 by omega)
          rw [e9, e10]
          refine List.Lex.cons (List.Lex.cons (List.Lex.cons ?_))
          rcases Nat.lt_or_ge (sod % 3600 / 60) (sod' % 3600 / 60) with hMi | hMi
          · exact lt_two_digits (by omega) _ _
          · have hMie : sod % 3600 / 60 = sod' % 3600 / 60 := by omega
            obtain ⟨e11, e12⟩ := eq_two_digits (show sod % 3600 / 60 % 100
                = sod' % 3600 / 60 % 100 by omega)
            rw [e11, e12]
            refine List.Lex.cons (List.Lex.cons (List.Lex.cons ?_))
            exact lt_two_digits (by omega) _ _

theorem formatDateTime_le {days sod days' sod' : Nat}
    (hdy : days ≤ 3067670) (hdy' : days' ≤ 3067670)
    (hs : sod < 86400) (hs' : sod' < 86400)
    (h : days < days' ∨ (days = days' ∧ sod ≤ sod')) :
    formatDateTime days sod ≤ formatDateTime days' sod' := by
  have hy := yOf_le_9999 hdy
  have hy' := yOf_le_9999 hdy'
  have hm := mOf_bounds days
  have hm' := mOf_bounds days'
  have hd := dOf_bounds days
  have hd' := dOf_bounds days'
  rcases h with hlt | ⟨rfl, hsod⟩
  · have hstrict := civil_tuple_mono_strict hlt
    have hlex := @formatDateTime_strict days days' sod sod'
      hy hy' (by omega) (by omega) (by omega) (by omega) hs hs'
      (by rcases hstrict with h1 | ⟨h1, h2 | ⟨h2, h3⟩⟩
          · exact Or.inl h1
          · exact Or.inr ⟨h1, Or.inl h2⟩
          · exact Or.inr ⟨h1, Or.inr ⟨h2, Or.inl h3⟩⟩)
    exact le_of_lt (String.lt_iff_toList_lt.mpr hlex)
  · rcases Nat.eq_or_lt_of_le hsod with hse | hsl
    · rw [hse]
    · have hlex := @formatDateTime_strict days days sod sod'
        hy hy (by omega) (by omega) (by omega) (by omega) hs hs'
        (Or.inr ⟨rfl, Or.inr ⟨rfl, Or.inr ⟨rfl, hsl⟩⟩⟩)
      exact le_of_lt (String.lt_iff_toList_lt.mpr hlex)

/-- C9: for positive, representable millisecond inputs, `convert_focus_time_to_utc`
is monotone: `0 < a ≤ b` (both below the year-10000 overflow bound) gives
`convert_focus_time_to_utc a ≤ convert_focus_time_to_utc b` in the
lexicographic string order, which on the fixed-width `YYYY-MM-DD HH:MM:SS`
rendering coincides with chronological order — the timestamp never wraps
backwards. -/
theorem convert_focus_time_monotone (a b : Nat) (h0 : 0 < a) (hab : a ≤ b)
    (hb : b < 253402300800000) :
    convert_focus_time_to_utc a ≤ convert_focus_time_to_utc b := by
  have ea : convert_focus_time_to_utc a
      = formatDateTime ((unixEpochDays * 86400 + a / 1000) / 86400)
        ((unixEpochDays * 86400 + a / 1000) % 86400) := by
    unfold convert_focus_time_to_utc
    rw [if_neg (by omega), if_neg (by omega)]
  have eb : convert_focus_time_to_utc b
      = formatDateTime ((unixEpochDays * 86400 + b / 1000) / 86400)
        ((unixEpochDays * 86400 + b / 1000) % 86400) := by
    unfold convert_focus_time_to_utc
    rw [if_neg (by omega), if_neg (by omega)]
  rw [ea, eb]
  have hdiv : a / 1000 ≤ b / 1000 := Nat.div_le_div_right hab
  have hbb : b / 1000 ≤ 253402300799 := by omega
  apply formatDateTime_le
  · unfold unixEpochDays
    omega
  · unfold unixEpochDays
    omega
  · omega
  · omega
  · unfold unixEpochDays
    omega

theorem convert_focus_time_monotone_witness :
    convert_focus_time_to_utc 1000 ≤ convert_focus_time_to_utc 90061000 :=
  convert_focus_time_monotone 1000 90061000 (by decide) (by decide) (by decide)
